import Mathlib

/-!
Verification development for `schedule_manager.py`.

The file embeds the program shallowly:

* `parse_datetime` models `Notification.parse_datetime`, including the
  behaviour of `datetime.strptime` for the six format strings the source
  tries (`%Y` matches exactly four digits; the two-digit fields match one
  or two digits and are range-checked; a whitespace in the format matches
  a run of whitespace; literal `T` is matched case-insensitively because
  CPython compiles the format regex with IGNORECASE; the whole string must
  be consumed; out-of-range dates such as February 30 make the format
  fail and the next one is tried).
* `notification_init` models `Notification.__init__` with its exact
  statement order (parse first, then priority validation, then
  `validate()`), raw inputs being arbitrary Python values (`PyObj`) and
  failures being explicit `Err` values.
* `Scheduler` holds the two lists plus a log of delivery side effects;
  `run_pending_aux` iterates the copy `self.notifications[:]` while the
  live state is threaded through, exactly as the source loop does, and a
  `ValueError` raised by `send_notification` aborts the scan with the
  state mutated so far.

Wall-clock reads (`datetime.now()`) are passed in as explicit arguments.
-/

/-- Character for a single decimal digit (only used with arguments `≤ 9`). -/
def digitCh : Nat → Char
  | 0 => '0'
  | 1 => '1'
  | 2 => '2'
  | 3 => '3'
  | 4 => '4'
  | 5 => '5'
  | 6 => '6'
  | 7 => '7'
  | 8 => '8'
  | _ => '9'

/-- Whitespace as recognised by Python's `str.strip` and the `\s` class of
the `strptime` regex (ASCII fragment). -/
def pyIsSpace (c : Char) : Bool :=
  c == ' ' || c == '\t' || c == '\n' || c == '\r' || c == '\x0b' || c == '\x0c'

/-- Take at most `k` leading decimal digits. -/
def takeDigits : Nat → List Char → List Char × List Char
  | 0, cs => ([], cs)
  | _ + 1, [] => ([], [])
  | k + 1, c :: cs =>
    if c.isDigit then
      let p := takeDigits k cs
      (c :: p.1, p.2)
    else ([], c :: cs)

/-- Numeric value of a digit string, most significant digit first. -/
def digitsVal (ds : List Char) : Nat :=
  ds.foldl (fun a c => a * 10 + (c.toNat - 48)) 0

/-- One- or two-digit numeric field (`%m`, `%d`, `%H`, `%M`, `%S`). -/
def parseNum (k : Nat) (cs : List Char) : Option (Nat × List Char) :=
  match takeDigits k cs with
  | (ds, r) => if ds.isEmpty then none else some (digitsVal ds, r)

/-- Four-digit year field (`%Y` compiles to the regex `\d\d\d\d`). -/
def parseYear (cs : List Char) : Option (Nat × List Char) :=
  match takeDigits 4 cs with
  | (ds, r) => if ds.length = 4 then some (digitsVal ds, r) else none

/-- Naive `datetime` value (microseconds are always zero for parsed times
and are irrelevant to every property below, so they are omitted). -/
structure Datetime where
  year : Nat
  month : Nat
  day : Nat
  hour : Nat
  minute : Nat
  second : Nat
deriving DecidableEq

/-- Comparison of naive `datetime` objects: lexicographic on the fields. -/
def Datetime.le (a b : Datetime) : Bool :=
  if a.year ≠ b.year then decide (a.year < b.year)
  else if a.month ≠ b.month then decide (a.month < b.month)
  else if a.day ≠ b.day then decide (a.day < b.day)
  else if a.hour ≠ b.hour then decide (a.hour < b.hour)
  else if a.minute ≠ b.minute then decide (a.minute < b.minute)
  else decide (a.second ≤ b.second)

/-- Gregorian leap-year rule used by `datetime`. -/
def isLeap (y : Nat) : Bool :=
  y % 4 == 0 && (y % 100 != 0 || y % 400 == 0)

/-- Number of days of a month, as enforced by the `datetime` constructor. -/
def daysInMonth (y m : Nat) : Nat :=
  if m = 2 then (if isLeap y then 29 else 28)
  else if m = 4 ∨ m = 6 ∨ m = 9 ∨ m = 11 then 30
  else 31

/-- Fields extracted by `strptime`, with CPython's defaults
(year 1900, month 1, day 1, midnight). -/
structure RawFields where
  fy : Nat
  fm : Nat
  fd : Nat
  fh : Nat
  fmin : Nat
  fs : Nat
deriving DecidableEq

def initFields : RawFields := ⟨1900, 1, 1, 0, 0, 0⟩

/-- Tokens of a `strptime` format string. -/
inductive Tok where
  | year
  | month
  | day
  | hour
  | minute
  | second
  | lit (c : Char)
  | litT
  | ws
deriving DecidableEq

/-- Semantics of one format token, mirroring the regex fragment CPython
compiles for it (field ranges are those of `_strptime.TimeRE`). -/
def stepTok : Tok → RawFields → List Char → Option (RawFields × List Char)
  | .year, f, cs =>
    match parseYear cs with
    | some (v, r) => some ({ f with fy := v }, r)
    | none => none
  | .month, f, cs =>
    match parseNum 2 cs with
    | some (v, r) => if 1 ≤ v ∧ v ≤ 12 then some ({ f with fm := v }, r) else none
    | none => none
  | .day, f, cs =>
    match parseNum 2 cs with
    | some (v, r) => if 1 ≤ v ∧ v ≤ 31 then some ({ f with fd := v }, r) else none
    | none => none
  | .hour, f, cs =>
    match parseNum 2 cs with
    | some (v, r) => if v ≤ 23 then some ({ f with fh := v }, r) else none
    | none => none
  | .minute, f, cs =>
    match parseNum 2 cs with
    | some (v, r) => if v ≤ 59 then some ({ f with fmin := v }, r) else none
    | none => none
  | .second, f, cs =>
    match parseNum 2 cs with
    | some (v, r) => if v ≤ 61 then some ({ f with fs := v }, r) else none
    | none => none
  | .lit c, f, cs =>
    match cs with
    | x :: r => if x = c then some (f, r) else none
    | [] => none
  | .litT, f, cs =>
    match cs with
    | x :: r => if x = 'T' ∨ x = 't' then some (f, r) else none
    | [] => none
  | .ws, f, cs =>
    match cs with
    | x :: r => if pyIsSpace x then some (f, r.dropWhile pyIsSpace) else none
    | [] => none

/-- Run a whole format; the regex must consume the entire input
(`found.end() == len(data_string)` in `_strptime`). -/
def runToks : List Tok → RawFields → List Char → Option RawFields
  | [], f, [] => some f
  | [], _, _ :: _ => none
  | t :: ts, f, cs =>
    match stepTok t f cs with
    | some (f2, r) => runToks ts f2 r
    | none => none

/-- Construction of the `datetime` object from the extracted fields; a
`ValueError` here (year 0, February 30, leap second) is caught by the
source loop and treated as a format mismatch. -/
def mkDatetime (f : RawFields) : Option Datetime :=
  if 1 ≤ f.fy ∧ f.fy ≤ 9999 ∧ f.fd ≤ daysInMonth f.fy f.fm ∧ f.fs ≤ 59
  then some ⟨f.fy, f.fm, f.fd, f.fh, f.fmin, f.fs⟩ else none

/-- Model of `datetime.strptime(datetime_str, fmt)` restricted to the
format directives the source uses. -/
def strptime (fmt : List Tok) (cs : List Char) : Option Datetime :=
  match runToks fmt initFields cs with
  | some f => mkDatetime f
  | none => none

def fmtYmdHMS : List Tok :=
  [.year, .lit '-', .month, .lit '-', .day, .ws, .hour, .lit ':', .minute, .lit ':', .second]

def fmtYmdHM : List Tok :=
  [.year, .lit '-', .month, .lit '-', .day, .ws, .hour, .lit ':', .minute]

def fmtYmdTHMS : List Tok :=
  [.year, .lit '-', .month, .lit '-', .day, .litT, .hour, .lit ':', .minute, .lit ':', .second]

def fmtYmdTHM : List Tok :=
  [.year, .lit '-', .month, .lit '-', .day, .litT, .hour, .lit ':', .minute]

def fmtDmyDotHM : List Tok :=
  [.day, .lit '.', .month, .lit '.', .year, .ws, .hour, .lit ':', .minute]

def fmtDmySlashHM : List Tok :=
  [.day, .lit '/', .month, .lit '/', .year, .ws, .hour, .lit ':', .minute]

/-- The `formats` list of `Notification.parse_datetime`, in source order. -/
def pyFormats : List (List Tok) :=
  [fmtYmdHMS, fmtYmdHM, fmtYmdTHMS, fmtYmdTHM, fmtDmyDotHM, fmtDmySlashHM]

/-- Python's `str.strip()` on the character list. -/
def pyStrip (cs : List Char) : List Char :=
  ((cs.dropWhile pyIsSpace).reverse.dropWhile pyIsSpace).reverse

/-- The `for fmt in formats: try ... except ValueError: continue` loop. -/
def tryFormats : List (List Tok) → List Char → Option Datetime
  | [], _ => none
  | f :: fs, cs =>
    match strptime f cs with
    | some dt => some dt
    | none => tryFormats fs cs

/-- Model of `Notification.parse_datetime` on an actual string input:
strip, then try the formats in order; `none` stands for the final
`raise ValueError(...)`. -/
def parse_datetime (s : String) : Option Datetime :=
  tryFormats pyFormats (pyStrip s.data)

/-- Raw Python values as far as the constructor's checks distinguish
them: text, or a non-text value (numbers and `None` are the ones the
spec mentions). -/
inductive PyObj where
  | str (s : String)
  | int (n : Int)
  | pyNone
deriving DecidableEq

/-- Exceptions of the program. The source raises `ValueError` in every
validation site and `AttributeError` when a text method is called on a
non-text value; the spec's taxonomy distinguishes the sites, so the
model does too (the two attribute errors name the missing method). -/
inductive Err where
  | valUserId
  | valMessage
  | valPriority
  | parseErr
  | attrNoStrip
  | attrNoLower
deriving DecidableEq

/-- View of an `Except` value as a sum, to decide equalities. -/
def exceptToSum {ε α : Type} : Except ε α → ε ⊕ α
  | .error e => .inl e
  | .ok a => .inr a

instance {ε α : Type} [DecidableEq ε] [DecidableEq α] : DecidableEq (Except ε α) :=
  fun x y =>
    decidable_of_iff (exceptToSum x = exceptToSum y)
      (by cases x <;> cases y <;> simp [exceptToSum])

/-- Which model exceptions the spec's `ValidationError` bucket covers:
the empty/wrong-kind `user_id` / `message` checks and the invalid
`priority` check. -/
def isValidationError : Err → Bool
  | .valUserId => true
  | .valMessage => true
  | .valPriority => true
  | _ => false

inductive NStatus where
  | pending
  | sent
deriving DecidableEq

/-- The `Notification` record after a successful construction. -/
structure Notification where
  user_id : String
  message : String
  scheduled_time : Datetime
  created_at : Datetime
  status : NStatus
  priority : String
deriving DecidableEq

/-- Lower-casing of one character, as `str.lower()` does on the ASCII
range (the three valid priority words are ASCII). -/
def pyLowerChar (c : Char) : Char :=
  if 'A' ≤ c ∧ c ≤ 'Z' then Char.ofNat (c.toNat + 32) else c

/-- Model of Python's `str.lower()`. -/
def pyLower (s : String) : String :=
  String.mk (s.data.map pyLowerChar)

/-- Model of `Notification.validate_priority`: `.lower()` fails on a
non-text value, otherwise membership in `['high', 'normal', 'low']` is
checked and the lowercased text is returned. -/
def validate_priority (p : PyObj) : Except Err String :=
  match p with
  | .str s =>
    if pyLower s = "high" ∨ pyLower s = "normal" ∨ pyLower s = "low" then .ok (pyLower s)
    else .error .valPriority
  | _ => .error .attrNoLower

/-- The `self.parse_datetime(scheduled_time)` call of `__init__`:
`.strip()` fails on a non-text value, a text that matches no format
raises the parse `ValueError`. -/
def parse_scheduled (p : PyObj) : Except Err Datetime :=
  match p with
  | .str s =>
    match parse_datetime s with
    | some dt => .ok dt
    | none => .error .parseErr
  | _ => .error .attrNoStrip

/-- Model of `Notification.validate`: `user_id` then `message` must be
non-empty text (an empty text is falsy, a non-text value fails the
`isinstance` check; both raise the same `ValueError`). The final
`isinstance(self.scheduled_time, datetime)` check always passes, since
the field was produced by `parse_datetime`. -/
def validate_fields (u m : PyObj) : Except Err (String × String) :=
  match u with
  | .str su =>
    if su = "" then .error .valUserId
    else
      match m with
      | .str sm => if sm = "" then .error .valMessage else .ok (su, sm)
      | _ => .error .valMessage
  | _ => .error .valUserId

/-- Model of `Notification.__init__`, in statement order: the plain
assignments to `user_id` / `message` are unconditionally first, then
`parse_datetime`, then `created_at = datetime.now()` (passed in as
`now`), then `status = 'pending'`, then `validate_priority`, then
`validate()`. -/
def notification_init (now : Datetime) (user_id message scheduled_time priority : PyObj) :
    Except Err Notification :=
  match parse_scheduled scheduled_time with
  | .error e => .error e
  | .ok dt =>
    match validate_priority priority with
    | .error e => .error e
    | .ok pr =>
      match validate_fields user_id message with
      | .error e => .error e
      | .ok (u, m) => .ok ⟨u, m, dt, now, .pending, pr⟩

/-- Construction with the `priority` argument omitted: the signature's
default is the text `'normal'`. -/
def notification_init_default (now : Datetime) (user_id message scheduled_time : PyObj) :
    Except Err Notification :=
  notification_init now user_id message scheduled_time (.str "normal")

/-- The mapping returned by `Notification.to_dict`. -/
structure NotifSummary where
  user_id : String
  message_preview : String
  scheduled_time : String
  created_at : String
  status : String
deriving DecidableEq

/-- Zero-padded decimal rendering of `n` on exactly `w` digits
(meaningful for `n < 10 ^ w`). -/
def padNum : Nat → Nat → List Char
  | 0, _ => []
  | w + 1, n => digitCh (n / 10 ^ w) :: padNum w (n % 10 ^ w)

/-- Character list of the ISO rendering, `YYYY-MM-DDTHH:MM:SS`. -/
def padIso (dt : Datetime) : List Char :=
  padNum 4 dt.year ++ '-' :: (padNum 2 dt.month ++ '-' :: (padNum 2 dt.day ++
    'T' :: (padNum 2 dt.hour ++ ':' :: (padNum 2 dt.minute ++ ':' :: padNum 2 dt.second))))

/-- The `datetime.isoformat()` text of a parsed timestamp. -/
def isoformat (dt : Datetime) : String :=
  String.mk (padIso dt)

def statusText : NStatus → String
  | .pending => "pending"
  | .sent => "sent"

/-- Model of `Notification.to_dict`: the preview is `message[:30] + '...'`
when `len(message) > 30` (lengths and slices count characters), else the
message itself. -/
def to_dict (n : Notification) : NotifSummary :=
  { user_id := n.user_id
    message_preview :=
      if n.message.length > 30 then String.mk (n.message.data.take 30 ++ ['.', '.', '.'])
      else n.message
    scheduled_time := isoformat n.scheduled_time
    created_at := isoformat n.created_at
    status := statusText n.status }

/-- Scheduler state: the two collections plus the trace of delivery side
effects (`send_notification` prints a line determined by the pair
`(user_id, message)`; the trace records those pairs). -/
structure Scheduler where
  notifications : List Notification
  sent_notifications : List Notification
  log : List (String × String)
deriving DecidableEq

def initScheduler : Scheduler := ⟨[], [], []⟩

/-- Model of the module-level `send_notification`: its two validations,
then the pair that determines the printed line. -/
def send_notification (u m : String) : Except Err (String × String) :=
  if u = "" then .error .valUserId
  else if m = "" then .error .valMessage
  else .ok (u, m)

/-- Model of `Scheduler.schedule`: the `isinstance` check always passes
for a value of type `Notification`, so the effect is the append. -/
def Scheduler.schedule (st : Scheduler) (n : Notification) : Scheduler :=
  { st with notifications := st.notifications ++ [n] }

/-- Python's `list.remove`: drop the first matching element. (In the
source the match is object identity; on the lists reachable here the
first value-equal occurrence gives the same resulting state, see the
lemmas below, which never remove a value that is absent.) -/
def removeFirst {α : Type} [DecidableEq α] : List α → α → List α
  | [], _ => []
  | x :: xs, a => if x = a then xs else x :: removeFirst xs a

/-- The `notification.status = "sent"` mutation. -/
def markSent (n : Notification) : Notification :=
  { n with status := .sent }

/-- The loop of `Scheduler.run_pending`: iterate the copy
`self.notifications[:]` (the function's first argument) while the live
state is threaded through. A due notification is first delivered (a
`ValueError` there propagates, keeping the state mutated so far), then
marked sent, removed from `notifications` and appended to
`sent_notifications`, and the counter is incremented. -/
def run_pending_aux (now : Datetime) : List Notification → Scheduler → Scheduler × Except Err Nat
  | [], st => (st, .ok 0)
  | n :: rest, st =>
    if Datetime.le n.scheduled_time now then
      match send_notification n.user_id n.message with
      | .error e => (st, .error e)
      | .ok entry =>
        let st2 : Scheduler :=
          { notifications := removeFirst st.notifications n
            sent_notifications := st.sent_notifications ++ [markSent n]
            log := st.log ++ [entry] }
        match run_pending_aux now rest st2 with
        | (st3, .ok c) => (st3, .ok (c + 1))
        | (st3, .error e) => (st3, .error e)
    else run_pending_aux now rest st

/-- Model of `Scheduler.run_pending`; `now` is the single
`datetime.now()` captured at the start of the scan. -/
def Scheduler.run_pending (now : Datetime) (st : Scheduler) : Scheduler × Except Err Nat :=
  run_pending_aux now st.notifications st

/-- Operations a caller can perform on a scheduler. -/
inductive SchedOp where
  | sched (n : Notification)
  | runp (now : Datetime)

def applyOp (st : Scheduler) : SchedOp → Scheduler
  | .sched n => st.schedule n
  | .runp now => (Scheduler.run_pending now st).1

def execOps : List SchedOp → Scheduler → Scheduler
  | [], st => st
  | op :: rest, st => execOps rest (applyOp st op)

/-- All notifications passed to `schedule` by a sequence of operations. -/
def scheduledList (ops : List SchedOp) : List Notification :=
  ops.filterMap fun op =>
    match op with
    | .sched n => some n
    | .runp _ => none

/-- Identity of a notification entry apart from its mutable `status`
field. -/
def notifCore (n : Notification) : String × String × Datetime × Datetime × String :=
  (n.user_id, n.message, n.scheduled_time, n.created_at, n.priority)

/-- Multiset of entry identities held by the two collections together. -/
def coreBag (st : Scheduler) : Multiset (String × String × Datetime × Datetime × String) :=
  ↑(st.notifications.map notifCore) + ↑(st.sent_notifications.map notifCore)

/-! ### Lemmas about `removeFirst` -/

theorem removeFirst_append_of_notMem {α : Type} [DecidableEq α] (n : α) :
    ∀ (p rest : List α), n ∉ p → removeFirst (p ++ n :: rest) n = p ++ rest
  | [], rest, _ => by simp [removeFirst]
  | x :: p, rest, h => by
    have hx : ¬(x = n) := fun e => h (by rw [e]; exact List.mem_cons_self n p)
    have hn : n ∉ p := fun e => h (List.mem_cons_of_mem x e)
    calc removeFirst ((x :: p) ++ n :: rest) n
        = x :: removeFirst (p ++ n :: rest) n := by
          simp only [List.cons_append, removeFirst, if_neg hx]
          rfl
      _ = x :: (p ++ rest) := by rw [removeFirst_append_of_notMem n p rest hn]
      _ = (x :: p) ++ rest := rfl

theorem coe_eq_cons_removeFirst {α : Type} [DecidableEq α] (a : α) :
    ∀ l : List α, a ∈ l → (↑l : Multiset α) = a ::ₘ ↑(removeFirst l a)
  | x :: xs, h => by
    by_cases hx : x = a
    · subst hx
      simp [removeFirst]
    · have ha : a ∈ xs := by
        rcases List.mem_cons.mp h with h1 | h1
        · exact absurd h1.symm hx
        · exact h1
      have ih := coe_eq_cons_removeFirst a xs ha
      calc (↑(x :: xs) : Multiset α) = x ::ₘ ↑xs := by simp
        _ = x ::ₘ a ::ₘ ↑(removeFirst xs a) := by rw [ih]
        _ = a ::ₘ x ::ₘ ↑(removeFirst xs a) := Multiset.cons_swap x a _
        _ = a ::ₘ ↑(x :: removeFirst xs a) := by simp
        _ = a ::ₘ ↑(removeFirst (x :: xs) a) := by rw [removeFirst, if_neg hx]

/-! ### The scan of `run_pending`, characterised -/

/-- When the part of the pending list already scanned (`p`) holds only
not-yet-due notifications and every notification still to scan (`l`) has
non-empty `user_id` and `message`, the scan moves exactly the due part
of `l` (in order) to `sent_notifications`, logs it in the same order,
leaves the not-due part in place, and returns the number moved. -/
theorem run_pending_aux_eq (now : Datetime) :
    ∀ (l p sentL : List Notification) (logL : List (String × String)),
      (∀ n ∈ l, n.user_id ≠ "" ∧ n.message ≠ "") →
      (∀ x ∈ p, Datetime.le x.scheduled_time now = false) →
      run_pending_aux now l ⟨p ++ l, sentL, logL⟩ =
        (⟨p ++ l.filter (fun n => !Datetime.le n.scheduled_time now),
          sentL ++ (l.filter (fun n => Datetime.le n.scheduled_time now)).map markSent,
          logL ++ (l.filter (fun n => Datetime.le n.scheduled_time now)).map
            (fun n => (n.user_id, n.message))⟩,
         .ok (l.filter (fun n => Datetime.le n.scheduled_time now)).length)
  | [], p, sentL, logL => by
    intro _ _
    simp [run_pending_aux]
  | n :: rest, p, sentL, logL => by
    intro hwf hp
    have hwfn := hwf n (List.mem_cons_self n rest)
    have hwfr : ∀ x ∈ rest, x.user_id ≠ "" ∧ x.message ≠ "" :=
      fun x hx => hwf x (List.mem_cons_of_mem n hx)
    cases hdue : Datetime.le n.scheduled_time now with
    | true =>
      have hnp : n ∉ p := fun hmem => by
        have := hp n hmem
        rw [hdue] at this
        exact Bool.true_eq_false.mp this
      have hrw : removeFirst (p ++ n :: rest) n = p ++ rest :=
        removeFirst_append_of_notMem n p rest hnp
      have ih := run_pending_aux_eq now rest p (sentL ++ [markSent n])
        (logL ++ [(n.user_id, n.message)]) hwfr hp
      simp only [run_pending_aux, hdue, if_true, send_notification,
        if_neg hwfn.1, if_neg hwfn.2, hrw, ih]
      simp [List.filter_cons, hdue, List.append_assoc]
    | false =>
      have hp2 : ∀ x ∈ p ++ [n], Datetime.le x.scheduled_time now = false := by
        intro x hx
        rcases List.mem_append.mp hx with h1 | h1
        · exact hp x h1
        · rw [List.mem_singleton.mp h1]; exact hdue
      have ih := run_pending_aux_eq now rest (p ++ [n]) sentL logL hwfr hp2
      have hassoc : p ++ n :: rest = (p ++ [n]) ++ rest := by simp
      simp only [run_pending_aux, hdue, Bool.false_eq_true, if_false, hassoc, ih]
      simp [List.filter_cons, hdue, List.append_assoc]

/-- A scan over a list with nothing due changes nothing and counts 0. -/
theorem run_pending_aux_nodue (now : Datetime) :
    ∀ (l : List Notification) (st : Scheduler),
      (∀ n ∈ l, Datetime.le n.scheduled_time now = false) →
      run_pending_aux now l st = (st, .ok 0)
  | [], st => by
    intro _
    simp [run_pending_aux]
  | n :: rest, st => by
    intro h
    have hdue := h n (List.mem_cons_self n rest)
    have ih := run_pending_aux_nodue now rest st
      (fun x hx => h x (List.mem_cons_of_mem n hx))
    simp [run_pending_aux, hdue, ih]

/-- The scan conserves the multiset of entry identities, whatever
happens (including an aborting delivery error), as long as the list
being iterated is a sub-multiset of the live pending list. -/
theorem coreBag_run_pending_aux (now : Datetime) :
    ∀ (l : List Notification) (st : Scheduler),
      (↑l : Multiset Notification) ≤ ↑st.notifications →
      coreBag (run_pending_aux now l st).1 = coreBag st
  | [], st => by
    intro _
    simp [run_pending_aux]
  | n :: rest, st => by
    intro hle
    cases hdue : Datetime.le n.scheduled_time now with
    | false =>
      have hle2 : (↑rest : Multiset Notification) ≤ ↑st.notifications := by
        refine le_trans ?_ hle
        have : (↑rest : Multiset Notification) ≤ n ::ₘ ↑rest := Multiset.le_cons_self _ n
        simpa using this
      have ih := coreBag_run_pending_aux now rest st hle2
      simp [run_pending_aux, hdue, ih]
    | true =>
      have hmem : n ∈ st.notifications := by
        have : n ∈ (↑(n :: rest) : Multiset Notification) := by simp
        simpa using Multiset.mem_of_le hle this
      have hsplit := coe_eq_cons_removeFirst n st.notifications hmem
      cases hsend : send_notification n.user_id n.message with
      | error e =>
        simp [run_pending_aux, hdue, hsend]
      | ok entry =>
        have hle2 : (↑rest : Multiset Notification) ≤ ↑(removeFirst st.notifications n) := by
          have h1 : (n ::ₘ ↑rest : Multiset Notification) ≤
              n ::ₘ ↑(removeFirst st.notifications n) := by
            rw [← hsplit]
            simpa using hle
          exact (Multiset.cons_le_cons_iff n).mp h1
        have hmap : (↑(st.notifications.map notifCore) :
            Multiset (String × String × Datetime × Datetime × String)) =
            notifCore n ::ₘ ↑((removeFirst st.notifications n).map notifCore) := by
          have h2 := congrArg (Multiset.map notifCore) hsplit
          simpa using h2
        have hbag : coreBag ⟨removeFirst st.notifications n,
            st.sent_notifications ++ [markSent n], st.log ++ [entry]⟩ = coreBag st := by
          have hc : notifCore (markSent n) = notifCore n := rfl
          dsimp only [coreBag]

          rw [List.map_append, List.map_cons, List.map_nil, hc, hmap,
            ← Multiset.coe_add, Multiset.coe_singleton, ← Multiset.singleton_add]
          abel
        have ih := coreBag_run_pending_aux now rest
          ⟨removeFirst st.notifications n,
            st.sent_notifications ++ [markSent n], st.log ++ [entry]⟩ hle2
        rcases hrec : run_pending_aux now rest
          ⟨removeFirst st.notifications n,
            st.sent_notifications ++ [markSent n], st.log ++ [entry]⟩ with ⟨st3, res⟩
        rw [hrec] at ih
        cases res with
        | ok c =>
          simp only [run_pending_aux, hdue, if_true, hsend, hrec]
          exact ih.trans hbag
        | error e =>
          simp only [run_pending_aux, hdue, if_true, hsend, hrec]
          exact ih.trans hbag

/-- Executing operations adds exactly the scheduled entries to the bag. -/
theorem coreBag_execOps :
    ∀ (ops : List SchedOp) (st : Scheduler),
      coreBag (execOps ops st) = coreBag st + ↑((scheduledList ops).map notifCore)
  | [], st => by simp [execOps, scheduledList]
  | .sched n :: rest, st => by
    have ih := coreBag_execOps rest (st.schedule n)
    have hstep : coreBag (st.schedule n) = coreBag st + {notifCore n} := by
      dsimp only [coreBag, Scheduler.schedule]
      rw [List.map_append, List.map_cons, List.map_nil,
        ← Multiset.coe_add, Multiset.coe_singleton]
      abel
    have hsched : scheduledList (.sched n :: rest) = n :: scheduledList rest := by
      simp [scheduledList]
    rw [show execOps (.sched n :: rest) st = execOps rest (st.schedule n) from rfl, ih, hstep,
      hsched, List.map_cons, ← Multiset.cons_coe, ← Multiset.singleton_add]
    abel
  | .runp now :: rest, st => by
    have ih := coreBag_execOps rest (Scheduler.run_pending now st).1
    have hstep : coreBag (Scheduler.run_pending now st).1 = coreBag st :=
      coreBag_run_pending_aux now st.notifications st (le_refl _)
    simp only [execOps, applyOp, ih, hstep, scheduledList, List.filterMap_cons]

/-! ### Concrete values used by the witnesses -/

def wDue : Notification :=
  ⟨"u1", "hello", ⟨2020, 1, 1, 0, 0, 0⟩, ⟨2020, 1, 1, 0, 0, 0⟩, .pending, "normal"⟩

def wLater : Notification :=
  ⟨"u2", "later", ⟨2031, 1, 1, 0, 0, 0⟩, ⟨2020, 1, 1, 0, 0, 0⟩, .pending, "normal"⟩

def wSched : Scheduler := ⟨[wDue, wLater], [], []⟩

def wNow : Datetime := ⟨2025, 6, 1, 12, 0, 0⟩

/-! ### Claims about the scheduler -/

/-- C1: with the single `now` captured at the start of the scan,
`run_pending` delivers exactly the pending notifications with
`scheduled_time ≤ now` (the comparison is inclusive), in pending order:
each is logged, marked `sent`, removed from `notifications` and appended
to `sent_notifications`; the return value is the number delivered; the
not-yet-due notifications stay in `notifications` in their relative
order; and an empty pending list gives 0 with no change at all. -/
theorem run_pending_delivers_exactly_due (now : Datetime) (st : Scheduler)
    (hwf : ∀ n ∈ st.notifications, n.user_id ≠ "" ∧ n.message ≠ "") :
    Scheduler.run_pending now st =
      ({ notifications := st.notifications.filter (fun n => !Datetime.le n.scheduled_time now)
         sent_notifications := st.sent_notifications ++
           (st.notifications.filter (fun n => Datetime.le n.scheduled_time now)).map markSent
         log := st.log ++
           (st.notifications.filter (fun n => Datetime.le n.scheduled_time now)).map
             (fun n => (n.user_id, n.message)) },
       .ok (st.notifications.filter (fun n => Datetime.le n.scheduled_time now)).length) ∧
    (st.notifications = [] → Scheduler.run_pending now st = (st, .ok 0)) := by
  have h := run_pending_aux_eq now st.notifications [] st.sent_notifications st.log hwf
    (by intro x hx; exact absurd hx (List.not_mem_nil x))
  rw [List.nil_append] at h
  constructor
  · exact h
  · intro he
    show run_pending_aux now st.notifications st = (st, .ok 0)
    rw [he]
    simp [run_pending_aux]

theorem run_pending_delivers_exactly_due_witness :
    (∀ n ∈ wSched.notifications, n.user_id ≠ "" ∧ n.message ≠ "") ∧
    Scheduler.run_pending wNow wSched =
      (⟨[wLater], [markSent wDue], [("u1", "hello")]⟩, .ok 1) := by
  constructor
  · decide
  · have h := (run_pending_delivers_exactly_due wNow wSched (by decide)).1
    rw [h]
    decide

/-- C3: starting from a fresh scheduler, after any sequence of
`schedule` and `run_pending` operations the multiset of entry
identities held by `notifications` and `sent_notifications` together is
exactly the multiset of entries that were scheduled: every scheduled
entry is in exactly one of the two collections, never both, never
neither, including independent entries with equal field values. -/
theorem scheduled_entry_in_exactly_one_collection (ops : List SchedOp) :
    coreBag (execOps ops initScheduler) = ↑((scheduledList ops).map notifCore) := by
  rw [coreBag_execOps ops initScheduler]
  simp [coreBag, initScheduler]

/-- C5: a second `run_pending` with the same `now` and no intervening
`schedule` delivers nothing: it returns 0 and leaves the state (its log
included) unchanged, because delivered notifications were physically
moved out of `notifications` by the first call. -/
theorem run_pending_twice_second_zero (now : Datetime) (st : Scheduler)
    (hwf : ∀ n ∈ st.notifications, n.user_id ≠ "" ∧ n.message ≠ "") :
    Scheduler.run_pending now (Scheduler.run_pending now st).1 =
      ((Scheduler.run_pending now st).1, .ok 0) := by
  have h := run_pending_aux_eq now st.notifications [] st.sent_notifications st.log hwf
    (by intro x hx; exact absurd hx (List.not_mem_nil x))
  rw [List.nil_append] at h
  have hfst : (Scheduler.run_pending now st).1 =
      ⟨st.notifications.filter (fun n => !Datetime.le n.scheduled_time now),
       st.sent_notifications ++
         (st.notifications.filter (fun n => Datetime.le n.scheduled_time now)).map markSent,
       st.log ++
         (st.notifications.filter (fun n => Datetime.le n.scheduled_time now)).map
           (fun n => (n.user_id, n.message))⟩ := congrArg Prod.fst h
  rw [hfst]
  exact run_pending_aux_nodue now _ _ (fun n hn => by
    have hb := (List.mem_filter.mp hn).2
    simpa using hb)

theorem run_pending_twice_second_zero_witness :
    (∀ n ∈ wSched.notifications, n.user_id ≠ "" ∧ n.message ≠ "") ∧
    Scheduler.run_pending wNow (Scheduler.run_pending wNow wSched).1 =
      ((Scheduler.run_pending wNow wSched).1, .ok 0) :=
  ⟨by decide, run_pending_twice_second_zero wNow wSched (by decide)⟩

/-- C9: every notification delivered by `run_pending` agrees with a due
entry of the original pending list on every field except `status`,
which is now `sent`; and the notifications left pending are original
entries, not due, kept in their relative order (a sublist), entirely
unchanged. -/
theorem run_pending_mutates_only_status (now : Datetime) (st : Scheduler)
    (hwf : ∀ n ∈ st.notifications, n.user_id ≠ "" ∧ n.message ≠ "") :
    (∀ n ∈ (Scheduler.run_pending now st).1.sent_notifications.drop
        st.sent_notifications.length,
      ∃ n0, n0 ∈ st.notifications ∧ Datetime.le n0.scheduled_time now = true ∧
        n.user_id = n0.user_id ∧ n.message = n0.message ∧
        n.scheduled_time = n0.scheduled_time ∧ n.created_at = n0.created_at ∧
        n.priority = n0.priority ∧ n.status = NStatus.sent) ∧
    (Scheduler.run_pending now st).1.notifications.Sublist st.notifications ∧
    (∀ n ∈ (Scheduler.run_pending now st).1.notifications,
      n ∈ st.notifications ∧ Datetime.le n.scheduled_time now = false) := by
  have h := run_pending_aux_eq now st.notifications [] st.sent_notifications st.log hwf
    (by intro x hx; exact absurd hx (List.not_mem_nil x))
  rw [List.nil_append] at h
  have hfst : (Scheduler.run_pending now st).1 =
      ⟨st.notifications.filter (fun n => !Datetime.le n.scheduled_time now),
       st.sent_notifications ++
         (st.notifications.filter (fun n => Datetime.le n.scheduled_time now)).map markSent,
       st.log ++
         (st.notifications.filter (fun n => Datetime.le n.scheduled_time now)).map
           (fun n => (n.user_id, n.message))⟩ := congrArg Prod.fst h
  rw [hfst]
  refine ⟨?_, ?_, ?_⟩
  · intro n hn
    rw [List.drop_left] at hn
    rcases List.mem_map.mp hn with ⟨n0, hn0, hmk⟩
    rcases List.mem_filter.mp hn0 with ⟨hmem, hdue⟩
    subst hmk
    exact ⟨n0, hmem, hdue, rfl, rfl, rfl, rfl, rfl, rfl⟩
  · exact List.filter_sublist _
  · intro n hn
    rcases List.mem_filter.mp hn with ⟨hmem, hb⟩
    exact ⟨hmem, by simpa using hb⟩

theorem run_pending_mutates_only_status_witness :
    (∀ n ∈ wSched.notifications, n.user_id ≠ "" ∧ n.message ≠ "") ∧
    (Scheduler.run_pending wNow wSched).1.notifications.Sublist wSched.notifications :=
  ⟨by decide, (run_pending_mutates_only_status wNow wSched (by decide)).2.1⟩

/-! ### Claim C4: the format cascade -/

/-- If the formats before position `i` all fail and format `i` matches,
the cascade returns format `i`'s result. -/
theorem tryFormats_first :
    ∀ (fs : List (List Tok)) (cs : List Char) (i : Nat) (h : i < fs.length) (dt : Datetime),
      (∀ j (hj : j < i), strptime (fs.get ⟨j, Nat.lt_trans hj h⟩) cs = none) →
      strptime (fs.get ⟨i, h⟩) cs = some dt →
      tryFormats fs cs = some dt
  | [], _, i, h, dt => by
    intro _ _
    exact absurd h (by simp)
  | f :: fs, cs, 0, h, dt => by
    intro _ hi
    simp only [List.get] at hi
    simp [tryFormats, hi]
  | f :: fs, cs, i + 1, h, dt => by
    intro hnone hi
    have h0 : strptime f cs = none := hnone 0 (Nat.succ_pos i)
    have ih := tryFormats_first fs cs i (Nat.lt_of_succ_lt_succ h) dt
      (fun j hj => hnone (j + 1) (Nat.succ_lt_succ hj)) hi
    simp [tryFormats, h0, ih]

/-- If every format fails, the cascade fails. -/
theorem tryFormats_all_none :
    ∀ (fs : List (List Tok)) (cs : List Char),
      (∀ i (h : i < fs.length), strptime (fs.get ⟨i, h⟩) cs = none) →
      tryFormats fs cs = none
  | [], _ => by
    intro _
    rfl
  | f :: fs, cs => by
    intro h
    have h0 := h 0 (by simp)
    have ih := tryFormats_all_none fs cs (fun i hi => h (i + 1) (by simpa using hi))
    simp only [List.get] at h0
    simp [tryFormats, h0, ih]

/-- C4: `parse_datetime` first strips leading and trailing whitespace,
then tries the six formats of `pyFormats` in their fixed order: the
first format that matches the stripped text decides the result, and if
none matches the parse fails. -/
theorem parse_datetime_first_format_wins (s : String) :
    parse_datetime s = tryFormats pyFormats (pyStrip s.data) ∧
    (∀ (i : Nat) (h : i < pyFormats.length) (dt : Datetime),
      (∀ j (hj : j < i),
        strptime (pyFormats.get ⟨j, Nat.lt_trans hj h⟩) (pyStrip s.data) = none) →
      strptime (pyFormats.get ⟨i, h⟩) (pyStrip s.data) = some dt →
      parse_datetime s = some dt) ∧
    ((∀ i (h : i < pyFormats.length), strptime (pyFormats.get ⟨i, h⟩) (pyStrip s.data) = none) →
      parse_datetime s = none) := by
  refine ⟨rfl, ?_, ?_⟩
  · intro i h dt hnone hi
    exact tryFormats_first pyFormats (pyStrip s.data) i h dt hnone hi
  · intro hall
    exact tryFormats_all_none pyFormats (pyStrip s.data) hall

theorem parse_datetime_first_format_wins_witness :
    parse_datetime " 2025-10-26 10:00 " = some ⟨2025, 10, 26, 10, 0, 0⟩ := by
  refine (parse_datetime_first_format_wins " 2025-10-26 10:00 ").2.1 1 (by decide)
    ⟨2025, 10, 26, 10, 0, 0⟩ ?_ (by decide)
  intro j hj
  interval_cases j
  show strptime fmtYmdHMS (pyStrip " 2025-10-26 10:00 ".data) = none
  decide

/-! ### Digit renderings and their round trip through the field parsers -/

theorem padNum_length : ∀ (w n : Nat), (padNum w n).length = w
  | 0, _ => rfl
  | w + 1, n => by simp [padNum, padNum_length w]

theorem digitCh_isDigit (d : Nat) : (digitCh d).isDigit = true := by
  rcases d with _ | _ | _ | _ | _ | _ | _ | _ | _ | d <;> rfl

theorem digitCh_toNat (d : Nat) (h : d ≤ 9) : (digitCh d).toNat - 48 = d := by
  interval_cases d <;> rfl

theorem pyIsSpace_digitCh (d : Nat) : pyIsSpace (digitCh d) = false := by
  rcases d with _ | _ | _ | _ | _ | _ | _ | _ | _ | d <;> rfl

/-- Whether the input does not continue with another digit (both ends of
a rendered numeric field in the six formats satisfy this). -/
def headNotDigit : List Char → Bool
  | [] => true
  | c :: _ => !c.isDigit

theorem headNotDigit_cons (c : Char) (rest : List Char) (hc : c.isDigit = false) :
    headNotDigit (c :: rest) = true := by
  simp [headNotDigit, hc]

theorem padNum_succ_append (w n : Nat) (X : List Char) :
    padNum (w + 1) n ++ X = digitCh (n / 10 ^ w) :: (padNum w (n % 10 ^ w) ++ X) := rfl

theorem padNum_two (v : Nat) : padNum 2 v = [digitCh (v / 10), digitCh (v % 10)] := by
  simp [padNum, pow_one, pow_zero, Nat.div_one, Nat.mod_one]

theorem takeDigits_padNum : ∀ (w k n : Nat) (rest : List Char), w ≤ k → n < 10 ^ w →
    headNotDigit rest = true → takeDigits k (padNum w n ++ rest) = (padNum w n, rest)
  | 0, k, n, rest => by
    intro _ _ hrest
    cases k with
    | zero => simp [takeDigits, padNum]
    | succ k =>
      cases rest with
      | nil => simp [takeDigits, padNum]
      | cons c cs =>
        have hc : c.isDigit = false := by simpa [headNotDigit] using hrest
        simp [takeDigits, padNum, hc]
  | w + 1, k, n, rest => by
    intro hwk hn hrest
    cases k with
    | zero => exact absurd hwk (by omega)
    | succ k =>
      have hd : (digitCh (n / 10 ^ w)).isDigit = true := digitCh_isDigit _
      have hlt : n % 10 ^ w < 10 ^ w := Nat.mod_lt _ (pow_pos (by norm_num) w)
      have ih := takeDigits_padNum w k (n % 10 ^ w) rest (Nat.succ_le_succ_iff.mp hwk)
        hlt hrest
      simp [padNum, takeDigits, hd, ih]

theorem digitsVal_go : ∀ (w n a : Nat), n < 10 ^ w →
    (padNum w n).foldl (fun acc c => acc * 10 + (c.toNat - 48)) a = a * 10 ^ w + n
  | 0, n, a => by
    intro hn
    have hn0 : n = 0 := by simpa using hn
    simp [padNum, hn0]
  | w + 1, n, a => by
    intro hn
    have hq : n / 10 ^ w ≤ 9 := by
      have hq2 : n / 10 ^ w < 10 := by
        apply Nat.div_lt_of_lt_mul
        rw [← pow_succ]
        exact hn
      omega
    have hic := digitCh_toNat (n / 10 ^ w) hq
    have hlt : n % 10 ^ w < 10 ^ w := Nat.mod_lt _ (pow_pos (by norm_num) w)
    have ih := digitsVal_go w (n % 10 ^ w) (a * 10 + n / 10 ^ w) hlt
    have hdm := Nat.div_add_mod n (10 ^ w)
    calc (padNum (w + 1) n).foldl (fun acc c => acc * 10 + (c.toNat - 48)) a
        = (padNum w (n % 10 ^ w)).foldl (fun acc c => acc * 10 + (c.toNat - 48))
            (a * 10 + ((digitCh (n / 10 ^ w)).toNat - 48)) := rfl
      _ = (padNum w (n % 10 ^ w)).foldl (fun acc c => acc * 10 + (c.toNat - 48))
            (a * 10 + n / 10 ^ w) := by rw [hic]
      _ = (a * 10 + n / 10 ^ w) * 10 ^ w + n % 10 ^ w := ih
      _ = a * 10 ^ (w + 1) + n := by
          have hr : (a * 10 + n / 10 ^ w) * 10 ^ w + n % 10 ^ w
              = a * (10 ^ w * 10) + (10 ^ w * (n / 10 ^ w) + n % 10 ^ w) := by ring
          rw [hr, hdm, pow_succ]

theorem digitsVal_padNum (w n : Nat) (hn : n < 10 ^ w) : digitsVal (padNum w n) = n := by
  have h := digitsVal_go w n 0 hn
  simpa [digitsVal] using h

theorem padNum_isEmpty_false (w n : Nat) (hw : w ≠ 0) : (padNum w n).isEmpty = false := by
  cases hp : padNum w n with
  | nil =>
    have hl := padNum_length w n
    rw [hp] at hl
    simp at hl
    omega
  | cons a l => rfl

theorem parseNum_padNum (n : Nat) (rest : List Char) (hn : n < 100)
    (hrest : headNotDigit rest = true) :
    parseNum 2 (padNum 2 n ++ rest) = some (n, rest) := by
  have hn2 : n < 10 ^ 2 := by simpa using hn
  have ht := takeDigits_padNum 2 2 n rest (le_refl 2) hn2 hrest
  simp only [parseNum, ht, padNum_isEmpty_false 2 n (by norm_num),
    digitsVal_padNum 2 n hn2]
  simp

theorem parseYear_padNum (y : Nat) (rest : List Char) (hy : y < 10000)
    (hrest : headNotDigit rest = true) :
    parseYear (padNum 4 y ++ rest) = some (y, rest) := by
  have hy4 : y < 10 ^ 4 := by simpa using hy
  have ht := takeDigits_padNum 4 4 y rest (le_refl 4) hy4 hrest
  simp [parseYear, ht, padNum_length, digitsVal_padNum 4 y hy4]

theorem parseYear_two_digit_fail (d : Nat) (c : Char) (rest : List Char) (hd : d < 100)
    (hc : c.isDigit = false) :
    parseYear (padNum 2 d ++ c :: rest) = none := by
  have hd2 : d < 10 ^ 2 := by simpa using hd
  have ht := takeDigits_padNum 2 4 d (c :: rest) (by norm_num) hd2
    (headNotDigit_cons c rest hc)
  simp [parseYear, ht, padNum_length]

/-! ### Single-token behaviour on rendered fields -/

theorem stepTok_year (f : RawFields) (y : Nat) (rest : List Char) (hy : y < 10000)
    (hrest : headNotDigit rest = true) :
    stepTok .year f (padNum 4 y ++ rest) = some ({ f with fy := y }, rest) := by
  simp [stepTok, parseYear_padNum y rest hy hrest]

theorem stepTok_year_fail_two (f : RawFields) (d : Nat) (c : Char) (rest : List Char)
    (hd : d < 100) (hc : c.isDigit = false) :
    stepTok .year f (padNum 2 d ++ c :: rest) = none := by
  simp [stepTok, parseYear_two_digit_fail d c rest hd hc]

theorem stepTok_month (f : RawFields) (m : Nat) (rest : List Char) (hm1 : 1 ≤ m)
    (hm2 : m ≤ 12) (hrest : headNotDigit rest = true) :
    stepTok .month f (padNum 2 m ++ rest) = some ({ f with fm := m }, rest) := by
  simp [stepTok, parseNum_padNum m rest (by omega) hrest, hm1, hm2]

theorem stepTok_day (f : RawFields) (d : Nat) (rest : List Char) (hd1 : 1 ≤ d)
    (hd2 : d ≤ 31) (hrest : headNotDigit rest = true) :
    stepTok .day f (padNum 2 d ++ rest) = some ({ f with fd := d }, rest) := by
  simp [stepTok, parseNum_padNum d rest (by omega) hrest, hd1, hd2]

theorem stepTok_hour (f : RawFields) (h : Nat) (rest : List Char) (hh : h ≤ 23)
    (hrest : headNotDigit rest = true) :
    stepTok .hour f (padNum 2 h ++ rest) = some ({ f with fh := h }, rest) := by
  simp [stepTok, parseNum_padNum h rest (by omega) hrest, hh]

theorem stepTok_minute (f : RawFields) (mi : Nat) (rest : List Char) (hmi : mi ≤ 59)
    (hrest : headNotDigit rest = true) :
    stepTok .minute f (padNum 2 mi ++ rest) = some ({ f with fmin := mi }, rest) := by
  simp [stepTok, parseNum_padNum mi rest (by omega) hrest, hmi]

theorem stepTok_second (f : RawFields) (s : Nat) (rest : List Char) (hs : s ≤ 61)
    (hrest : headNotDigit rest = true) :
    stepTok .second f (padNum 2 s ++ rest) = some ({ f with fs := s }, rest) := by
  simp [stepTok, parseNum_padNum s rest (by omega) hrest, hs]

theorem stepTok_lit (f : RawFields) (c : Char) (rest : List Char) :
    stepTok (.lit c) f (c :: rest) = some (f, rest) := by
  simp [stepTok]

theorem stepTok_lit_ne (f : RawFields) (c x : Char) (rest : List Char) (h : ¬(x = c)) :
    stepTok (.lit c) f (x :: rest) = none := by
  simp [stepTok, h]

theorem stepTok_lit_nil (f : RawFields) (c : Char) : stepTok (.lit c) f [] = none := rfl

theorem stepTok_litT (f : RawFields) (rest : List Char) :
    stepTok .litT f ('T' :: rest) = some (f, rest) := by
  simp [stepTok]

theorem stepTok_litT_fail (f : RawFields) (x : Char) (rest : List Char) (h1 : ¬(x = 'T'))
    (h2 : ¬(x = 't')) :
    stepTok .litT f (x :: rest) = none := by
  simp [stepTok, h1, h2]

theorem stepTok_ws (f : RawFields) (c : Char) (rest : List Char) (hc : pyIsSpace c = false) :
    stepTok .ws f (' ' :: c :: rest) = some (f, c :: rest) := by
  have h1 : pyIsSpace ' ' = true := rfl
  simp [stepTok, h1, List.dropWhile_cons, hc]

theorem stepTok_ws_fail (f : RawFields) (x : Char) (rest : List Char)
    (hx : pyIsSpace x = false) :
    stepTok .ws f (x :: rest) = none := by
  simp [stepTok, hx]

theorem runToks_cons_some (t : Tok) (ts : List Tok) (f : RawFields) (cs : List Char)
    (f2 : RawFields) (r : List Char) (h : stepTok t f cs = some (f2, r)) :
    runToks (t :: ts) f cs = runToks ts f2 r := by
  simp [runToks, h]

theorem runToks_cons_none (t : Tok) (ts : List Tok) (f : RawFields) (cs : List Char)
    (h : stepTok t f cs = none) :
    runToks (t :: ts) f cs = none := by
  simp [runToks, h]

/-! ### The six canonical textual renderings of an instant -/

def render1 (y mo d h mi : Nat) : List Char :=
  padNum 4 y ++ '-' :: (padNum 2 mo ++ '-' :: (padNum 2 d ++ ' ' :: (padNum 2 h ++
    ':' :: (padNum 2 mi ++ ':' :: padNum 2 0))))

def render2 (y mo d h mi : Nat) : List Char :=
  padNum 4 y ++ '-' :: (padNum 2 mo ++ '-' :: (padNum 2 d ++ ' ' :: (padNum 2 h ++
    ':' :: padNum 2 mi)))

def render3 (y mo d h mi : Nat) : List Char :=
  padNum 4 y ++ '-' :: (padNum 2 mo ++ '-' :: (padNum 2 d ++ 'T' :: (padNum 2 h ++
    ':' :: (padNum 2 mi ++ ':' :: padNum 2 0))))

def render4 (y mo d h mi : Nat) : List Char :=
  padNum 4 y ++ '-' :: (padNum 2 mo ++ '-' :: (padNum 2 d ++ 'T' :: (padNum 2 h ++
    ':' :: padNum 2 mi)))

def render5 (y mo d h mi : Nat) : List Char :=
  padNum 2 d ++ '.' :: (padNum 2 mo ++ '.' :: (padNum 4 y ++ ' ' :: (padNum 2 h ++
    ':' :: padNum 2 mi)))

def render6 (y mo d h mi : Nat) : List Char :=
  padNum 2 d ++ '/' :: (padNum 2 mo ++ '/' :: (padNum 4 y ++ ' ' :: (padNum 2 h ++
    ':' :: padNum 2 mi)))

theorem daysInMonth_le_31 (y m : Nat) : daysInMonth y m ≤ 31 := by
  unfold daysInMonth
  split
  · split <;> omega
  · split <;> omega

/-! ### Claim C6: format independence of parsing -/

theorem runToks_ymd (ts : List Tok) (y mo d : Nat) (c : Char) (X : List Char)
    (hy4 : y < 10000) (hmo1 : 1 ≤ mo) (hmo2 : mo ≤ 12) (hd1 : 1 ≤ d) (hd31 : d ≤ 31)
    (hc : c.isDigit = false) :
    runToks (.year :: .lit '-' :: .month :: .lit '-' :: .day :: ts) initFields
      (padNum 4 y ++ '-' :: (padNum 2 mo ++ '-' :: (padNum 2 d ++ c :: X))) =
    runToks ts ⟨y, mo, d, 0, 0, 0⟩ (c :: X) := by
  rw [runToks_cons_some _ _ _ _ _ _
    (stepTok_year _ y _ hy4 (headNotDigit_cons '-' _ (by decide)))]
  rw [runToks_cons_some _ _ _ _ _ _ (stepTok_lit _ '-' _)]
  rw [runToks_cons_some _ _ _ _ _ _
    (stepTok_month _ mo _ hmo1 hmo2 (headNotDigit_cons '-' _ (by decide)))]
  rw [runToks_cons_some _ _ _ _ _ _ (stepTok_lit _ '-' _)]
  rw [runToks_cons_some _ _ _ _ _ _ (stepTok_day _ d _ hd1 hd31 (headNotDigit_cons c _ hc))]
  rfl

theorem runToks_dmy (ts : List Tok) (sep : Char) (y mo d : Nat) (X : List Char)
    (hy4 : y < 10000) (hmo1 : 1 ≤ mo) (hmo2 : mo ≤ 12) (hd1 : 1 ≤ d) (hd31 : d ≤ 31)
    (hsep : sep.isDigit = false) :
    runToks (.day :: .lit sep :: .month :: .lit sep :: .year :: ts) initFields
      (padNum 2 d ++ sep :: (padNum 2 mo ++ sep :: (padNum 4 y ++ ' ' :: X))) =
    runToks ts ⟨y, mo, d, 0, 0, 0⟩ (' ' :: X) := by
  rw [runToks_cons_some _ _ _ _ _ _ (stepTok_day _ d _ hd1 hd31 (headNotDigit_cons sep _ hsep))]
  rw [runToks_cons_some _ _ _ _ _ _ (stepTok_lit _ sep _)]
  rw [runToks_cons_some _ _ _ _ _ _
    (stepTok_month _ mo _ hmo1 hmo2 (headNotDigit_cons sep _ hsep))]
  rw [runToks_cons_some _ _ _ _ _ _ (stepTok_lit _ sep _)]
  rw [runToks_cons_some _ _ _ _ _ _
    (stepTok_year _ y _ hy4 (headNotDigit_cons ' ' _ (by decide)))]
  rfl

theorem runToks_ws_hm (f : RawFields) (h mi : Nat) (hh : h ≤ 23) (hmi : mi ≤ 59) :
    runToks [.ws, .hour, .lit ':', .minute] f
      (' ' :: (padNum 2 h ++ ':' :: padNum 2 mi)) = some { f with fh := h, fmin := mi } := by
  rw [padNum_succ_append 1 h]
  rw [runToks_cons_some _ _ _ _ _ _ (stepTok_ws _ _ _ (pyIsSpace_digitCh _))]
  rw [← padNum_succ_append 1 h]
  rw [runToks_cons_some _ _ _ _ _ _
    (stepTok_hour _ h _ hh (headNotDigit_cons ':' _ (by decide)))]
  rw [runToks_cons_some _ _ _ _ _ _ (stepTok_lit _ ':' _)]
  rw [show padNum 2 mi = padNum 2 mi ++ [] from (List.append_nil _).symm]
  rw [runToks_cons_some _ _ _ _ _ _ (stepTok_minute _ mi [] hmi rfl)]
  rfl

theorem runToks_ws_hms (f : RawFields) (h mi : Nat) (hh : h ≤ 23) (hmi : mi ≤ 59) :
    runToks [.ws, .hour, .lit ':', .minute, .lit ':', .second] f
      (' ' :: (padNum 2 h ++ ':' :: (padNum 2 mi ++ ':' :: padNum 2 0))) =
    some { f with fh := h, fmin := mi, fs := 0 } := by
  rw [padNum_succ_append 1 h]
  rw [runToks_cons_some _ _ _ _ _ _ (stepTok_ws _ _ _ (pyIsSpace_digitCh _))]
  rw [← padNum_succ_append 1 h]
  rw [runToks_cons_some _ _ _ _ _ _
    (stepTok_hour _ h _ hh (headNotDigit_cons ':' _ (by decide)))]
  rw [runToks_cons_some _ _ _ _ _ _ (stepTok_lit _ ':' _)]
  rw [runToks_cons_some _ _ _ _ _ _
    (stepTok_minute _ mi _ hmi (headNotDigit_cons ':' _ (by decide)))]
  rw [runToks_cons_some _ _ _ _ _ _ (stepTok_lit _ ':' _)]
  rw [show padNum 2 0 = padNum 2 0 ++ [] from (List.append_nil _).symm]
  rw [runToks_cons_some _ _ _ _ _ _ (stepTok_second _ 0 [] (by norm_num) rfl)]
  rfl

theorem runToks_T_hm (f : RawFields) (h mi : Nat) (hh : h ≤ 23) (hmi : mi ≤ 59) :
    runToks [.litT, .hour, .lit ':', .minute] f
      ('T' :: (padNum 2 h ++ ':' :: padNum 2 mi)) = some { f with fh := h, fmin := mi } := by
  rw [runToks_cons_some _ _ _ _ _ _ (stepTok_litT _ _)]
  rw [runToks_cons_some _ _ _ _ _ _
    (stepTok_hour _ h _ hh (headNotDigit_cons ':' _ (by decide)))]
  rw [runToks_cons_some _ _ _ _ _ _ (stepTok_lit _ ':' _)]
  rw [show padNum 2 mi = padNum 2 mi ++ [] from (List.append_nil _).symm]
  rw [runToks_cons_some _ _ _ _ _ _ (stepTok_minute _ mi [] hmi rfl)]
  rfl

theorem runToks_T_hms (f : RawFields) (h mi : Nat) (hh : h ≤ 23) (hmi : mi ≤ 59) :
    runToks [.litT, .hour, .lit ':', .minute, .lit ':', .second] f
      ('T' :: (padNum 2 h ++ ':' :: (padNum 2 mi ++ ':' :: padNum 2 0))) =
    some { f with fh := h, fmin := mi, fs := 0 } := by
  rw [runToks_cons_some _ _ _ _ _ _ (stepTok_litT _ _)]
  rw [runToks_cons_some _ _ _ _ _ _
    (stepTok_hour _ h _ hh (headNotDigit_cons ':' _ (by decide)))]
  rw [runToks_cons_some _ _ _ _ _ _ (stepTok_lit _ ':' _)]
  rw [runToks_cons_some _ _ _ _ _ _
    (stepTok_minute _ mi _ hmi (headNotDigit_cons ':' _ (by decide)))]
  rw [runToks_cons_some _ _ _ _ _ _ (stepTok_lit _ ':' _)]
  rw [show padNum 2 0 = padNum 2 0 ++ [] from (List.append_nil _).symm]
  rw [runToks_cons_some _ _ _ _ _ _ (stepTok_second _ 0 [] (by norm_num) rfl)]
  rfl


theorem strptime_f1_render1 (y mo d h mi : Nat) (hy1 : 1 ≤ y) (hy2 : y ≤ 9999)
    (hmo1 : 1 ≤ mo) (hmo2 : mo ≤ 12) (hd1 : 1 ≤ d) (hd2 : d ≤ daysInMonth y mo)
    (hh : h ≤ 23) (hmi : mi ≤ 59) :
    strptime fmtYmdHMS (render1 y mo d h mi) = some ⟨y, mo, d, h, mi, 0⟩ := by
  have hy4 : y < 10000 := by omega
  have hd31 : d ≤ 31 := le_trans hd2 (daysInMonth_le_31 y mo)
  rw [strptime, fmtYmdHMS, render1]
  rw [runToks_ymd _ y mo d ' ' _ hy4 hmo1 hmo2 hd1 hd31 (by decide)]
  rw [runToks_ws_hms _ h mi hh hmi]
  simp [mkDatetime, hy1, hy2, hd2]

theorem pyStrip_eq_self (cs : List Char)
    (h1 : ∀ c, cs.head? = some c → pyIsSpace c = false)
    (h2 : ∀ c, cs.reverse.head? = some c → pyIsSpace c = false) :
    pyStrip cs = cs := by
  unfold pyStrip
  cases cs with
  | nil => simp
  | cons a l =>
    have ha : pyIsSpace a = false := h1 a rfl
    rw [List.dropWhile_cons, if_neg (by simp [ha])]
    rcases hrev : (a :: l).reverse with _ | ⟨b, m⟩
    · exact absurd hrev (by simp)
    · have hb : pyIsSpace b = false := h2 b (by rw [hrev]; rfl)
      rw [List.dropWhile_cons, if_neg (by simp [hb]), ← hrev, List.reverse_reverse]

theorem pyStrip_render1 (y mo d h mi : Nat) :
    pyStrip (render1 y mo d h mi) = render1 y mo d h mi := by
  apply pyStrip_eq_self
  · intro c hc
    rw [render1, padNum_succ_append] at hc
    simp only [List.cons_append, List.head?_cons, Option.some.injEq] at hc
    rw [← hc]
    exact pyIsSpace_digitCh _
  · intro c hc
    rw [render1] at hc
    simp only [padNum_two, List.reverse_append, List.reverse_cons, List.reverse_nil,
      List.append_assoc, List.nil_append, List.cons_append, List.head?_cons,
      Option.some.injEq] at hc
    rw [← hc]
    exact pyIsSpace_digitCh _

theorem strptime_f2_render2 (y mo d h mi : Nat) (hy1 : 1 ≤ y) (hy2 : y ≤ 9999)
    (hmo1 : 1 ≤ mo) (hmo2 : mo ≤ 12) (hd1 : 1 ≤ d) (hd2 : d ≤ daysInMonth y mo)
    (hh : h ≤ 23) (hmi : mi ≤ 59) :
    strptime fmtYmdHM (render2 y mo d h mi) = some ⟨y, mo, d, h, mi, 0⟩ := by
  have hy4 : y < 10000 := by omega
  have hd31 : d ≤ 31 := le_trans hd2 (daysInMonth_le_31 y mo)
  rw [strptime, fmtYmdHM, render2]
  rw [runToks_ymd _ y mo d ' ' _ hy4 hmo1 hmo2 hd1 hd31 (by decide)]
  rw [runToks_ws_hm _ h mi hh hmi]
  simp [mkDatetime, hy1, hy2, hd2]

theorem strptime_f3_render3 (y mo d h mi : Nat) (hy1 : 1 ≤ y) (hy2 : y ≤ 9999)
    (hmo1 : 1 ≤ mo) (hmo2 : mo ≤ 12) (hd1 : 1 ≤ d) (hd2 : d ≤ daysInMonth y mo)
    (hh : h ≤ 23) (hmi : mi ≤ 59) :
    strptime fmtYmdTHMS (render3 y mo d h mi) = some ⟨y, mo, d, h, mi, 0⟩ := by
  have hy4 : y < 10000 := by omega
  have hd31 : d ≤ 31 := le_trans hd2 (daysInMonth_le_31 y mo)
  rw [strptime, fmtYmdTHMS, render3]
  rw [runToks_ymd _ y mo d 'T' _ hy4 hmo1 hmo2 hd1 hd31 (by decide)]
  rw [runToks_T_hms _ h mi hh hmi]
  simp [mkDatetime, hy1, hy2, hd2]

theorem strptime_f4_render4 (y mo d h mi : Nat) (hy1 : 1 ≤ y) (hy2 : y ≤ 9999)
    (hmo1 : 1 ≤ mo) (hmo2 : mo ≤ 12) (hd1 : 1 ≤ d) (hd2 : d ≤ daysInMonth y mo)
    (hh : h ≤ 23) (hmi : mi ≤ 59) :
    strptime fmtYmdTHM (render4 y mo d h mi) = some ⟨y, mo, d, h, mi, 0⟩ := by
  have hy4 : y < 10000 := by omega
  have hd31 : d ≤ 31 := le_trans hd2 (daysInMonth_le_31 y mo)
  rw [strptime, fmtYmdTHM, render4]
  rw [runToks_ymd _ y mo d 'T' _ hy4 hmo1 hmo2 hd1 hd31 (by decide)]
  rw [runToks_T_hm _ h mi hh hmi]
  simp [mkDatetime, hy1, hy2, hd2]

theorem strptime_f5_render5 (y mo d h mi : Nat) (hy1 : 1 ≤ y) (hy2 : y ≤ 9999)
    (hmo1 : 1 ≤ mo) (hmo2 : mo ≤ 12) (hd1 : 1 ≤ d) (hd2 : d ≤ daysInMonth y mo)
    (hh : h ≤ 23) (hmi : mi ≤ 59) :
    strptime fmtDmyDotHM (render5 y mo d h mi) = some ⟨y, mo, d, h, mi, 0⟩ := by
  have hy4 : y < 10000 := by omega
  have hd31 : d ≤ 31 := le_trans hd2 (daysInMonth_le_31 y mo)
  rw [strptime, fmtDmyDotHM, render5]
  rw [runToks_dmy _ '.' y mo d _ hy4 hmo1 hmo2 hd1 hd31 (by decide)]
  rw [runToks_ws_hm _ h mi hh hmi]
  simp [mkDatetime, hy1, hy2, hd2]

theorem strptime_f6_render6 (y mo d h mi : Nat) (hy1 : 1 ≤ y) (hy2 : y ≤ 9999)
    (hmo1 : 1 ≤ mo) (hmo2 : mo ≤ 12) (hd1 : 1 ≤ d) (hd2 : d ≤ daysInMonth y mo)
    (hh : h ≤ 23) (hmi : mi ≤ 59) :
    strptime fmtDmySlashHM (render6 y mo d h mi) = some ⟨y, mo, d, h, mi, 0⟩ := by
  have hy4 : y < 10000 := by omega
  have hd31 : d ≤ 31 := le_trans hd2 (daysInMonth_le_31 y mo)
  rw [strptime, fmtDmySlashHM, render6]
  rw [runToks_dmy _ '/' y mo d _ hy4 hmo1 hmo2 hd1 hd31 (by decide)]
  rw [runToks_ws_hm _ h mi hh hmi]
  simp [mkDatetime, hy1, hy2, hd2]

theorem strptime_f1_render2_none (y mo d h mi : Nat) (hy4 : y < 10000)
    (hmo1 : 1 ≤ mo) (hmo2 : mo ≤ 12) (hd1 : 1 ≤ d) (hd31 : d ≤ 31)
    (hh : h ≤ 23) (hmi : mi ≤ 59) :
    strptime fmtYmdHMS (render2 y mo d h mi) = none := by
  rw [strptime, fmtYmdHMS, render2]
  rw [runToks_ymd _ y mo d ' ' _ hy4 hmo1 hmo2 hd1 hd31 (by decide)]
  rw [padNum_succ_append 1 h]
  rw [runToks_cons_some _ _ _ _ _ _ (stepTok_ws _ _ _ (pyIsSpace_digitCh _))]
  rw [← padNum_succ_append 1 h]
  rw [runToks_cons_some _ _ _ _ _ _
    (stepTok_hour _ h _ hh (headNotDigit_cons ':' _ (by decide)))]
  rw [runToks_cons_some _ _ _ _ _ _ (stepTok_lit _ ':' _)]
  rw [show padNum 2 mi = padNum 2 mi ++ [] from (List.append_nil _).symm]
  rw [runToks_cons_some _ _ _ _ _ _ (stepTok_minute _ mi [] hmi rfl)]
  rw [runToks_cons_none _ _ _ _ (stepTok_lit_nil _ ':')]

theorem strptime_f1_render3_none (y mo d h mi : Nat) (hy4 : y < 10000)
    (hmo1 : 1 ≤ mo) (hmo2 : mo ≤ 12) (hd1 : 1 ≤ d) (hd31 : d ≤ 31) :
    strptime fmtYmdHMS (render3 y mo d h mi) = none := by
  rw [strptime, fmtYmdHMS, render3]
  rw [runToks_ymd _ y mo d 'T' _ hy4 hmo1 hmo2 hd1 hd31 (by decide)]
  rw [runToks_cons_none _ _ _ _ (stepTok_ws_fail _ 'T' _ (by decide))]

theorem strptime_f2_render3_none (y mo d h mi : Nat) (hy4 : y < 10000)
    (hmo1 : 1 ≤ mo) (hmo2 : mo ≤ 12) (hd1 : 1 ≤ d) (hd31 : d ≤ 31) :
    strptime fmtYmdHM (render3 y mo d h mi) = none := by
  rw [strptime, fmtYmdHM, render3]
  rw [runToks_ymd _ y mo d 'T' _ hy4 hmo1 hmo2 hd1 hd31 (by decide)]
  rw [runToks_cons_none _ _ _ _ (stepTok_ws_fail _ 'T' _ (by decide))]

theorem strptime_f1_render4_none (y mo d h mi : Nat) (hy4 : y < 10000)
    (hmo1 : 1 ≤ mo) (hmo2 : mo ≤ 12) (hd1 : 1 ≤ d) (hd31 : d ≤ 31) :
    strptime fmtYmdHMS (render4 y mo d h mi) = none := by
  rw [strptime, fmtYmdHMS, render4]
  rw [runToks_ymd _ y mo d 'T' _ hy4 hmo1 hmo2 hd1 hd31 (by decide)]
  rw [runToks_cons_none _ _ _ _ (stepTok_ws_fail _ 'T' _ (by decide))]

theorem strptime_f2_render4_none (y mo d h mi : Nat) (hy4 : y < 10000)
    (hmo1 : 1 ≤ mo) (hmo2 : mo ≤ 12) (hd1 : 1 ≤ d) (hd31 : d ≤ 31) :
    strptime fmtYmdHM (render4 y mo d h mi) = none := by
  rw [strptime, fmtYmdHM, render4]
  rw [runToks_ymd _ y mo d 'T' _ hy4 hmo1 hmo2 hd1 hd31 (by decide)]
  rw [runToks_cons_none _ _ _ _ (stepTok_ws_fail _ 'T' _ (by decide))]

theorem strptime_f3_render4_none (y mo d h mi : Nat) (hy4 : y < 10000)
    (hmo1 : 1 ≤ mo) (hmo2 : mo ≤ 12) (hd1 : 1 ≤ d) (hd31 : d ≤ 31)
    (hh : h ≤ 23) (hmi : mi ≤ 59) :
    strptime fmtYmdTHMS (render4 y mo d h mi) = none := by
  rw [strptime, fmtYmdTHMS, render4]
  rw [runToks_ymd _ y mo d 'T' _ hy4 hmo1 hmo2 hd1 hd31 (by decide)]
  rw [runToks_cons_some _ _ _ _ _ _ (stepTok_litT _ _)]
  rw [runToks_cons_some _ _ _ _ _ _
    (stepTok_hour _ h _ hh (headNotDigit_cons ':' _ (by decide)))]
  rw [runToks_cons_some _ _ _ _ _ _ (stepTok_lit _ ':' _)]
  rw [show padNum 2 mi = padNum 2 mi ++ [] from (List.append_nil _).symm]
  rw [runToks_cons_some _ _ _ _ _ _ (stepTok_minute _ mi [] hmi rfl)]
  rw [runToks_cons_none _ _ _ _ (stepTok_lit_nil _ ':')]

theorem strptime_f1_render5_none (y mo d h mi : Nat) (hd31 : d ≤ 31) :
    strptime fmtYmdHMS (render5 y mo d h mi) = none := by
  rw [strptime, fmtYmdHMS, render5]
  rw [runToks_cons_none _ _ _ _ (stepTok_year_fail_two _ d '.' _ (by omega) (by decide))]

theorem strptime_f2_render5_none (y mo d h mi : Nat) (hd31 : d ≤ 31) :
    strptime fmtYmdHM (render5 y mo d h mi) = none := by
  rw [strptime, fmtYmdHM, render5]
  rw [runToks_cons_none _ _ _ _ (stepTok_year_fail_two _ d '.' _ (by omega) (by decide))]

theorem strptime_f3_render5_none (y mo d h mi : Nat) (hd31 : d ≤ 31) :
    strptime fmtYmdTHMS (render5 y mo d h mi) = none := by
  rw [strptime, fmtYmdTHMS, render5]
  rw [runToks_cons_none _ _ _ _ (stepTok_year_fail_two _ d '.' _ (by omega) (by decide))]

theorem strptime_f4_render5_none (y mo d h mi : Nat) (hd31 : d ≤ 31) :
    strptime fmtYmdTHM (render5 y mo d h mi) = none := by
  rw [strptime, fmtYmdTHM, render5]
  rw [runToks_cons_none _ _ _ _ (stepTok_year_fail_two _ d '.' _ (by omega) (by decide))]

theorem strptime_f1_render6_none (y mo d h mi : Nat) (hd31 : d ≤ 31) :
    strptime fmtYmdHMS (render6 y mo d h mi) = none := by
  rw [strptime, fmtYmdHMS, render6]
  rw [runToks_cons_none _ _ _ _ (stepTok_year_fail_two _ d '/' _ (by omega) (by decide))]

theorem strptime_f2_render6_none (y mo d h mi : Nat) (hd31 : d ≤ 31) :
    strptime fmtYmdHM (render6 y mo d h mi) = none := by
  rw [strptime, fmtYmdHM, render6]
  rw [runToks_cons_none _ _ _ _ (stepTok_year_fail_two _ d '/' _ (by omega) (by decide))]

theorem strptime_f3_render6_none (y mo d h mi : Nat) (hd31 : d ≤ 31) :
    strptime fmtYmdTHMS (render6 y mo d h mi) = none := by
  rw [strptime, fmtYmdTHMS, render6]
  rw [runToks_cons_none _ _ _ _ (stepTok_year_fail_two _ d '/' _ (by omega) (by decide))]

theorem strptime_f4_render6_none (y mo d h mi : Nat) (hd31 : d ≤ 31) :
    strptime fmtYmdTHM (render6 y mo d h mi) = none := by
  rw [strptime, fmtYmdTHM, render6]
  rw [runToks_cons_none _ _ _ _ (stepTok_year_fail_two _ d '/' _ (by omega) (by decide))]

theorem strptime_f5_render6_none (y mo d h mi : Nat) (hd1 : 1 ≤ d) (hd31 : d ≤ 31) :
    strptime fmtDmyDotHM (render6 y mo d h mi) = none := by
  rw [strptime, fmtDmyDotHM, render6]
  rw [runToks_cons_some _ _ _ _ _ _
    (stepTok_day _ d _ hd1 hd31 (headNotDigit_cons '/' _ (by decide)))]
  rw [runToks_cons_none _ _ _ _ (stepTok_lit_ne _ '.' '/' _ (by decide))]

theorem pyStrip_render2 (y mo d h mi : Nat) :
    pyStrip (render2 y mo d h mi) = render2 y mo d h mi := by
  apply pyStrip_eq_self
  · intro c hc
    rw [render2, padNum_succ_append] at hc
    simp only [List.cons_append, List.head?_cons, Option.some.injEq] at hc
    rw [← hc]
    exact pyIsSpace_digitCh _
  · intro c hc
    rw [render2] at hc
    simp only [padNum_two, List.reverse_append, List.reverse_cons, List.reverse_nil,
      List.append_assoc, List.nil_append, List.cons_append, List.head?_cons,
      Option.some.injEq] at hc
    rw [← hc]
    exact pyIsSpace_digitCh _

theorem pyStrip_render3 (y mo d h mi : Nat) :
    pyStrip (render3 y mo d h mi) = render3 y mo d h mi := by
  apply pyStrip_eq_self
  · intro c hc
    rw [render3, padNum_succ_append] at hc
    simp only [List.cons_append, List.head?_cons, Option.some.injEq] at hc
    rw [← hc]
    exact pyIsSpace_digitCh _
  · intro c hc
    rw [render3] at hc
    simp only [padNum_two, List.reverse_append, List.reverse_cons, List.reverse_nil,
      List.append_assoc, List.nil_append, List.cons_append, List.head?_cons,
      Option.some.injEq] at hc
    rw [← hc]
    exact pyIsSpace_digitCh _

theorem pyStrip_render4 (y mo d h mi : Nat) :
    pyStrip (render4 y mo d h mi) = render4 y mo d h mi := by
  apply pyStrip_eq_self
  · intro c hc
    rw [render4, padNum_succ_append] at hc
    simp only [List.cons_append, List.head?_cons, Option.some.injEq] at hc
    rw [← hc]
    exact pyIsSpace_digitCh _
  · intro c hc
    rw [render4] at hc
    simp only [padNum_two, List.reverse_append, List.reverse_cons, List.reverse_nil,
      List.append_assoc, List.nil_append, List.cons_append, List.head?_cons,
      Option.some.injEq] at hc
    rw [← hc]
    exact pyIsSpace_digitCh _

theorem pyStrip_render5 (y mo d h mi : Nat) :
    pyStrip (render5 y mo d h mi) = render5 y mo d h mi := by
  apply pyStrip_eq_self
  · intro c hc
    rw [render5, padNum_succ_append] at hc
    simp only [List.cons_append, List.head?_cons, Option.some.injEq] at hc
    rw [← hc]
    exact pyIsSpace_digitCh _
  · intro c hc
    rw [render5] at hc
    simp only [padNum_two, List.reverse_append, List.reverse_cons, List.reverse_nil,
      List.append_assoc, List.nil_append, List.cons_append, List.head?_cons,
      Option.some.injEq] at hc
    rw [← hc]
    exact pyIsSpace_digitCh _

theorem pyStrip_render6 (y mo d h mi : Nat) :
    pyStrip (render6 y mo d h mi) = render6 y mo d h mi := by
  apply pyStrip_eq_self
  · intro c hc
    rw [render6, padNum_succ_append] at hc
    simp only [List.cons_append, List.head?_cons, Option.some.injEq] at hc
    rw [← hc]
    exact pyIsSpace_digitCh _
  · intro c hc
    rw [render6] at hc
    simp only [padNum_two, List.reverse_append, List.reverse_cons, List.reverse_nil,
      List.append_assoc, List.nil_append, List.cons_append, List.head?_cons,
      Option.some.injEq] at hc
    rw [← hc]
    exact pyIsSpace_digitCh _

theorem tryFormats_cons_hit (f : List Tok) (fs : List (List Tok)) (cs : List Char)
    (dt : Datetime) (h : strptime f cs = some dt) :
    tryFormats (f :: fs) cs = some dt := by
  simp [tryFormats, h]

theorem tryFormats_cons_skip (f : List Tok) (fs : List (List Tok)) (cs : List Char)
    (h : strptime f cs = none) :
    tryFormats (f :: fs) cs = tryFormats fs cs := by
  simp [tryFormats, h]

theorem parse_render1 (y mo d h mi : Nat) (hy1 : 1 ≤ y) (hy2 : y ≤ 9999)
    (hmo1 : 1 ≤ mo) (hmo2 : mo ≤ 12) (hd1 : 1 ≤ d) (hd2 : d ≤ daysInMonth y mo)
    (hh : h ≤ 23) (hmi : mi ≤ 59) :
    parse_datetime (String.mk (render1 y mo d h mi)) = some ⟨y, mo, d, h, mi, 0⟩ := by
  have hy4 : y < 10000 := by omega
  have hd31 : d ≤ 31 := le_trans hd2 (daysInMonth_le_31 y mo)
  show tryFormats pyFormats (pyStrip (render1 y mo d h mi)) = _
  rw [pyStrip_render1, pyFormats]
  exact tryFormats_cons_hit _ _ _ _
    (strptime_f1_render1 y mo d h mi hy1 hy2 hmo1 hmo2 hd1 hd2 hh hmi)

theorem parse_render2 (y mo d h mi : Nat) (hy1 : 1 ≤ y) (hy2 : y ≤ 9999)
    (hmo1 : 1 ≤ mo) (hmo2 : mo ≤ 12) (hd1 : 1 ≤ d) (hd2 : d ≤ daysInMonth y mo)
    (hh : h ≤ 23) (hmi : mi ≤ 59) :
    parse_datetime (String.mk (render2 y mo d h mi)) = some ⟨y, mo, d, h, mi, 0⟩ := by
  have hy4 : y < 10000 := by omega
  have hd31 : d ≤ 31 := le_trans hd2 (daysInMonth_le_31 y mo)
  show tryFormats pyFormats (pyStrip (render2 y mo d h mi)) = _
  rw [pyStrip_render2, pyFormats]
  rw [tryFormats_cons_skip _ _ _
    (strptime_f1_render2_none y mo d h mi hy4 hmo1 hmo2 hd1 hd31 hh hmi)]
  exact tryFormats_cons_hit _ _ _ _
    (strptime_f2_render2 y mo d h mi hy1 hy2 hmo1 hmo2 hd1 hd2 hh hmi)

theorem parse_render3 (y mo d h mi : Nat) (hy1 : 1 ≤ y) (hy2 : y ≤ 9999)
    (hmo1 : 1 ≤ mo) (hmo2 : mo ≤ 12) (hd1 : 1 ≤ d) (hd2 : d ≤ daysInMonth y mo)
    (hh : h ≤ 23) (hmi : mi ≤ 59) :
    parse_datetime (String.mk (render3 y mo d h mi)) = some ⟨y, mo, d, h, mi, 0⟩ := by
  have hy4 : y < 10000 := by omega
  have hd31 : d ≤ 31 := le_trans hd2 (daysInMonth_le_31 y mo)
  show tryFormats pyFormats (pyStrip (render3 y mo d h mi)) = _
  rw [pyStrip_render3, pyFormats]
  rw [tryFormats_cons_skip _ _ _
    (strptime_f1_render3_none y mo d h mi hy4 hmo1 hmo2 hd1 hd31)]
  rw [tryFormats_cons_skip _ _ _
    (strptime_f2_render3_none y mo d h mi hy4 hmo1 hmo2 hd1 hd31)]
  exact tryFormats_cons_hit _ _ _ _
    (strptime_f3_render3 y mo d h mi hy1 hy2 hmo1 hmo2 hd1 hd2 hh hmi)

theorem parse_render4 (y mo d h mi : Nat) (hy1 : 1 ≤ y) (hy2 : y ≤ 9999)
    (hmo1 : 1 ≤ mo) (hmo2 : mo ≤ 12) (hd1 : 1 ≤ d) (hd2 : d ≤ daysInMonth y mo)
    (hh : h ≤ 23) (hmi : mi ≤ 59) :
    parse_datetime (String.mk (render4 y mo d h mi)) = some ⟨y, mo, d, h, mi, 0⟩ := by
  have hy4 : y < 10000 := by omega
  have hd31 : d ≤ 31 := le_trans hd2 (daysInMonth_le_31 y mo)
  show tryFormats pyFormats (pyStrip (render4 y mo d h mi)) = _
  rw [pyStrip_render4, pyFormats]
  rw [tryFormats_cons_skip _ _ _
    (strptime_f1_render4_none y mo d h mi hy4 hmo1 hmo2 hd1 hd31)]
  rw [tryFormats_cons_skip _ _ _
    (strptime_f2_render4_none y mo d h mi hy4 hmo1 hmo2 hd1 hd31)]
  rw [tryFormats_cons_skip _ _ _
    (strptime_f3_render4_none y mo d h mi hy4 hmo1 hmo2 hd1 hd31 hh hmi)]
  exact tryFormats_cons_hit _ _ _ _
    (strptime_f4_render4 y mo d h mi hy1 hy2 hmo1 hmo2 hd1 hd2 hh hmi)

theorem parse_render5 (y mo d h mi : Nat) (hy1 : 1 ≤ y) (hy2 : y ≤ 9999)
    (hmo1 : 1 ≤ mo) (hmo2 : mo ≤ 12) (hd1 : 1 ≤ d) (hd2 : d ≤ daysInMonth y mo)
    (hh : h ≤ 23) (hmi : mi ≤ 59) :
    parse_datetime (String.mk (render5 y mo d h mi)) = some ⟨y, mo, d, h, mi, 0⟩ := by
  have hy4 : y < 10000 := by omega
  have hd31 : d ≤ 31 := le_trans hd2 (daysInMonth_le_31 y mo)
  show tryFormats pyFormats (pyStrip (render5 y mo d h mi)) = _
  rw [pyStrip_render5, pyFormats]
  rw [tryFormats_cons_skip _ _ _ (strptime_f1_render5_none y mo d h mi hd31)]
  rw [tryFormats_cons_skip _ _ _ (strptime_f2_render5_none y mo d h mi hd31)]
  rw [tryFormats_cons_skip _ _ _ (strptime_f3_render5_none y mo d h mi hd31)]
  rw [tryFormats_cons_skip _ _ _ (strptime_f4_render5_none y mo d h mi hd31)]
  exact tryFormats_cons_hit _ _ _ _
    (strptime_f5_render5 y mo d h mi hy1 hy2 hmo1 hmo2 hd1 hd2 hh hmi)

theorem parse_render6 (y mo d h mi : Nat) (hy1 : 1 ≤ y) (hy2 : y ≤ 9999)
    (hmo1 : 1 ≤ mo) (hmo2 : mo ≤ 12) (hd1 : 1 ≤ d) (hd2 : d ≤ daysInMonth y mo)
    (hh : h ≤ 23) (hmi : mi ≤ 59) :
    parse_datetime (String.mk (render6 y mo d h mi)) = some ⟨y, mo, d, h, mi, 0⟩ := by
  have hy4 : y < 10000 := by omega
  have hd31 : d ≤ 31 := le_trans hd2 (daysInMonth_le_31 y mo)
  show tryFormats pyFormats (pyStrip (render6 y mo d h mi)) = _
  rw [pyStrip_render6, pyFormats]
  rw [tryFormats_cons_skip _ _ _ (strptime_f1_render6_none y mo d h mi hd31)]
  rw [tryFormats_cons_skip _ _ _ (strptime_f2_render6_none y mo d h mi hd31)]
  rw [tryFormats_cons_skip _ _ _ (strptime_f3_render6_none y mo d h mi hd31)]
  rw [tryFormats_cons_skip _ _ _ (strptime_f4_render6_none y mo d h mi hd31)]
  rw [tryFormats_cons_skip _ _ _ (strptime_f5_render6_none y mo d h mi hd1 hd31)]
  exact tryFormats_cons_hit _ _ _ _
    (strptime_f6_render6 y mo d h mi hy1 hy2 hmo1 hmo2 hd1 hd2 hh hmi)

/-- C6: an instant expressible in all six formats (a valid date with an
in-range hour and minute, and seconds zero since four of the formats
carry no seconds) parses to the same timestamp from each of its six
canonical renderings, so constructing notifications from the six texts
yields equal `scheduled_time` values. -/
theorem six_formats_same_instant (now : Datetime) (u m : String) (hu : u ≠ "") (hm : m ≠ "")
    (y mo d h mi : Nat) (hy1 : 1 ≤ y) (hy2 : y ≤ 9999) (hmo1 : 1 ≤ mo) (hmo2 : mo ≤ 12)
    (hd1 : 1 ≤ d) (hd2 : d ≤ daysInMonth y mo) (hh : h ≤ 23) (hmi : mi ≤ 59) :
    ∀ r ∈ [render1 y mo d h mi, render2 y mo d h mi, render3 y mo d h mi,
           render4 y mo d h mi, render5 y mo d h mi, render6 y mo d h mi],
      notification_init now (.str u) (.str m) (.str (String.mk r)) (.str "normal") =
        .ok ⟨u, m, ⟨y, mo, d, h, mi, 0⟩, now, .pending, "normal"⟩ := by
  have hpr : validate_priority (PyObj.str "normal") = .ok "normal" := by decide
  have hinit : ∀ r : List Char,
      parse_datetime (String.mk r) = some ⟨y, mo, d, h, mi, 0⟩ →
      notification_init now (.str u) (.str m) (.str (String.mk r)) (.str "normal") =
        .ok ⟨u, m, ⟨y, mo, d, h, mi, 0⟩, now, .pending, "normal"⟩ := by
    intro r hr
    simp [notification_init, parse_scheduled, hr, hpr, validate_fields, hu, hm]
  intro r hr
  simp only [List.mem_cons, List.not_mem_nil, or_false] at hr
  rcases hr with rfl | rfl | rfl | rfl | rfl | rfl
  · exact hinit _ (parse_render1 y mo d h mi hy1 hy2 hmo1 hmo2 hd1 hd2 hh hmi)
  · exact hinit _ (parse_render2 y mo d h mi hy1 hy2 hmo1 hmo2 hd1 hd2 hh hmi)
  · exact hinit _ (parse_render3 y mo d h mi hy1 hy2 hmo1 hmo2 hd1 hd2 hh hmi)
  · exact hinit _ (parse_render4 y mo d h mi hy1 hy2 hmo1 hmo2 hd1 hd2 hh hmi)
  · exact hinit _ (parse_render5 y mo d h mi hy1 hy2 hmo1 hmo2 hd1 hd2 hh hmi)
  · exact hinit _ (parse_render6 y mo d h mi hy1 hy2 hmo1 hmo2 hd1 hd2 hh hmi)

theorem six_formats_same_instant_witness :
    notification_init ⟨2020, 1, 1, 0, 0, 0⟩ (.str "a") (.str "b")
      (.str (String.mk (render5 2025 10 26 10 0))) (.str "normal") =
      .ok ⟨"a", "b", ⟨2025, 10, 26, 10, 0, 0⟩, ⟨2020, 1, 1, 0, 0, 0⟩, .pending, "normal"⟩ :=
  six_formats_same_instant ⟨2020, 1, 1, 0, 0, 0⟩ "a" "b" (by decide) (by decide)
    2025 10 26 10 0 (by norm_num) (by norm_num) (by norm_num) (by norm_num)
    (by norm_num) (by decide) (by norm_num) (by norm_num)
    (render5 2025 10 26 10 0) (by simp)

/-! ### Claims about construction errors and the summary -/

/-- C2 as stated is false: with an empty `user_id` and an unparseable
`scheduled_time`, `__init__` raises the parse error first, because
`parse_datetime` runs before `validate()`; the failure is not one of
the spec's `ValidationError` sites. -/
theorem empty_user_bad_date_not_validation :
    notification_init ⟨2020, 1, 1, 0, 0, 0⟩ (.str "") (.str "msg") (.str "not-a-date")
      (.str "normal") = .error .parseErr ∧ isValidationError .parseErr = false := by
  constructor
  · decide
  · rfl

/-- C2 amended: construction with an empty (or non-text) `user_id` or
`message` always fails; the failure is a `ValidationError` provided
`scheduled_time` is text matching an accepted format and `priority` is
text (otherwise the earlier `ParseError` or attribute error of those
steps is raised instead). -/
theorem empty_user_or_message_fails (now : Datetime) (u m st p : PyObj)
    (hbad : (∀ s, u = PyObj.str s → s = "") ∨ (∀ s, m = PyObj.str s → s = "")) :
    ∃ e, notification_init now u m st p = .error e ∧
      ((∃ dt, parse_scheduled st = .ok dt) → (∃ q, p = PyObj.str q) →
        isValidationError e = true) := by
  rcases hps : parse_scheduled st with e | dt
  · refine ⟨e, ?_, ?_⟩
    · simp [notification_init, hps]
    · rintro ⟨dt, hok⟩ _
      exact absurd hok (by simp)
  · rcases hvp : validate_priority p with e | pr
    · refine ⟨e, ?_, ?_⟩
      · simp [notification_init, hps, hvp]
      · rintro _ ⟨q, rfl⟩
        by_cases hmem : pyLower q = "high" ∨ pyLower q = "normal" ∨ pyLower q = "low"
        · simp [validate_priority, hmem] at hvp
        · simp [validate_priority, hmem] at hvp
          rw [← hvp]
          rfl
    · have hvf : ∃ e2, validate_fields u m = Except.error e2 ∧
          isValidationError e2 = true := by
        rcases hbad with hu | hm2
        · cases u with
          | str su =>
            have hsu : su = "" := hu su rfl
            subst hsu
            exact ⟨.valUserId, rfl, rfl⟩
          | int k => exact ⟨.valUserId, rfl, rfl⟩
          | pyNone => exact ⟨.valUserId, rfl, rfl⟩
        · cases u with
          | str su =>
            by_cases hsu : su = ""
            · subst hsu
              exact ⟨.valUserId, rfl, rfl⟩
            · cases m with
              | str sm =>
                have hsm : sm = "" := hm2 sm rfl
                subst hsm
                refine ⟨.valMessage, ?_, rfl⟩
                simp [validate_fields, hsu]
              | int k =>
                refine ⟨.valMessage, ?_, rfl⟩
                simp [validate_fields, hsu]
              | pyNone =>
                refine ⟨.valMessage, ?_, rfl⟩
                simp [validate_fields, hsu]
          | int k => exact ⟨.valUserId, rfl, rfl⟩
          | pyNone => exact ⟨.valUserId, rfl, rfl⟩
      rcases hvf with ⟨e2, hvf2, hval⟩
      refine ⟨e2, ?_, fun _ _ => hval⟩
      simp [notification_init, hps, hvp, hvf2]

theorem empty_user_or_message_fails_witness :
    ∃ e, notification_init ⟨2020, 1, 1, 0, 0, 0⟩ (.str "") (.str "msg")
        (.str "2020-01-01 00:00") (.str "normal") = .error e ∧
      ((∃ dt, parse_scheduled (PyObj.str "2020-01-01 00:00") = .ok dt) →
        (∃ q, PyObj.str "normal" = PyObj.str q) → isValidationError e = true) :=
  empty_user_or_message_fails ⟨2020, 1, 1, 0, 0, 0⟩ (.str "") (.str "msg")
    (.str "2020-01-01 00:00") (.str "normal")
    (Or.inl fun s hs => by injection hs with h; exact h.symm)

/-- C7: the summary's `message_preview` is the message itself when it
has at most 30 characters, and the first 30 characters followed by the
ellipsis when longer; `to_dict` is a pure function of the record. -/
theorem to_dict_message_preview (n : Notification) :
    (n.message.length ≤ 30 → (to_dict n).message_preview = n.message) ∧
    (30 < n.message.length →
      (to_dict n).message_preview = String.mk (n.message.data.take 30 ++ ['.', '.', '.'])) := by
  constructor
  · intro h
    show (if n.message.length > 30 then String.mk (n.message.data.take 30 ++ ['.', '.', '.'])
      else n.message) = n.message
    rw [if_neg (by omega)]
  · intro h
    show (if n.message.length > 30 then String.mk (n.message.data.take 30 ++ ['.', '.', '.'])
      else n.message) = String.mk (n.message.data.take 30 ++ ['.', '.', '.'])
    rw [if_pos h]

def wMsg30 : String := "012345678901234567890123456789"

def wMsg31 : String := "0123456789012345678901234567890"

def wN30 : Notification :=
  ⟨"u", wMsg30, ⟨2020, 1, 1, 0, 0, 0⟩, ⟨2020, 1, 1, 0, 0, 0⟩, .pending, "normal"⟩

def wN31 : Notification :=
  ⟨"u", wMsg31, ⟨2020, 1, 1, 0, 0, 0⟩, ⟨2020, 1, 1, 0, 0, 0⟩, .pending, "normal"⟩

theorem to_dict_message_preview_witness :
    (to_dict wN30).message_preview = wMsg30 ∧
    (to_dict wN31).message_preview = String.mk (wMsg31.data.take 30 ++ ['.', '.', '.']) :=
  ⟨(to_dict_message_preview wN30).1 (by decide),
   (to_dict_message_preview wN31).2 (by decide)⟩

/-- C8: once `scheduled_time` has parsed (the only step that precedes
the priority check), a priority text outside `high`/`normal`/`low`
under lower-casing fails with the priority `ValidationError` whatever
`user_id` and `message` are; a successful construction stores the
lowercased text; and omitting the argument means passing `'normal'`. -/
theorem priority_case_insensitive (now : Datetime) (u m st : PyObj) (p : String)
    (dt : Datetime) (hst : parse_scheduled st = .ok dt) :
    (¬(pyLower p = "high" ∨ pyLower p = "normal" ∨ pyLower p = "low") →
      notification_init now u m st (.str p) = .error .valPriority) ∧
    ((pyLower p = "high" ∨ pyLower p = "normal" ∨ pyLower p = "low") →
      ∀ n, notification_init now u m st (.str p) = .ok n → n.priority = pyLower p) ∧
    notification_init_default now u m st = notification_init now u m st (.str "normal") := by
  refine ⟨?_, ?_, rfl⟩
  · intro hbad
    simp [notification_init, hst, validate_priority, hbad]
  · intro hgood n hok
    simp only [notification_init, hst, validate_priority, if_pos hgood] at hok
    rcases hvf : validate_fields u m with e | ⟨su, sm⟩
    · rw [hvf] at hok
      exact absurd hok (by simp)
    · rw [hvf] at hok
      simp only [Except.ok.injEq] at hok
      subst hok
      rfl

theorem priority_case_insensitive_witness :
    parse_scheduled (PyObj.str "2020-01-01 00:00") = .ok ⟨2020, 1, 1, 0, 0, 0⟩ ∧
    notification_init ⟨2020, 1, 1, 0, 0, 0⟩ (.str "u") (.str "m")
      (.str "2020-01-01 00:00") (.str "URGENT") = .error .valPriority := by
  have hst : parse_scheduled (PyObj.str "2020-01-01 00:00") = .ok ⟨2020, 1, 1, 0, 0, 0⟩ := by
    decide
  exact ⟨hst, (priority_case_insensitive ⟨2020, 1, 1, 0, 0, 0⟩ (.str "u") (.str "m")
    (.str "2020-01-01 00:00") "URGENT" ⟨2020, 1, 1, 0, 0, 0⟩ hst).1 (by decide)⟩

/-- C10: a non-text priority makes construction fail with the
attribute error of `.lower()` (not a `ValidationError`), and only after
`scheduled_time` parsing has succeeded: when parsing fails, that
earlier failure is the one raised. -/
theorem nontext_priority_attribute_error (now : Datetime) (u m st p : PyObj)
    (dt : Datetime) :
    (parse_scheduled st = .ok dt → (∀ q, ¬(p = PyObj.str q)) →
      notification_init now u m st p = .error .attrNoLower) ∧
    (∀ e, parse_scheduled st = .error e → notification_init now u m st p = .error e) := by
  constructor
  · intro hst hp
    have hvp : validate_priority p = .error .attrNoLower := by
      cases p with
      | str q => exact absurd rfl (hp q)
      | int k => rfl
      | pyNone => rfl
    simp [notification_init, hst, hvp]
  · intro e he
    simp [notification_init, he]

theorem nontext_priority_attribute_error_witness :
    notification_init ⟨2020, 1, 1, 0, 0, 0⟩ (.str "u") (.str "m")
      (.str "2020-01-01 00:00") (.int 3) = .error .attrNoLower := by
  refine (nontext_priority_attribute_error ⟨2020, 1, 1, 0, 0, 0⟩ (.str "u") (.str "m")
    (.str "2020-01-01 00:00") (.int 3) ⟨2020, 1, 1, 0, 0, 0⟩).1 (by decide) ?_
  intro q hq
  exact absurd hq (by simp)
